import Mathlib

/-!
Shallow embedding of the shared/weak smart-pointer core of the repository
(the `IControlBlock` / `ControlBlockPtr` / `ControlBlockHolder` hierarchy,
`SharedPtr`, `WeakPtr`, `MakeShared` and `EnableSharedFromThis`).

All reference counters in the source are `size_t` (64-bit unsigned), so they
are embedded as `Nat` with explicit wrap-around modulo `2 ^ 64` on increment
and decrement.  `Dispose()` frees the managed object and `Destroy()` frees the
control block itself; in the embedding they are event counters on the control
block state, so that "called exactly once" becomes `disposeCount = 1`.

Raw pointers are embedded as `Option Nat` (`none` is `nullptr`); a control
block reference is likewise `Option Nat`.  All claims below concern a single
ownership group, i.e. one control block: no source operation ever touches a
control block other than the one its own handle references, so one block's
state can be tracked in isolation.
-/

namespace SmartPtr

/-- Width bound of the C++ `size_t` counters used by `IControlBlock`. -/
def USIZE : Nat := 2 ^ 64

/-- Unsigned increment, `++x` on a `size_t`: wraps modulo `2 ^ 64`. -/
def incSz (n : Nat) : Nat := (n + 1) % USIZE

/-- Unsigned decrement, `--x` on a `size_t`: `0` wraps to `2 ^ 64 - 1`. -/
def decSz (n : Nat) : Nat := if n = 0 then USIZE - 1 else n - 1

/-- State of one `IControlBlock`: the two counters `strong_ref_counter_` and
`weak_ref_counter_` from the source, plus two event counters recording how
many times `Dispose()` respectively `Destroy()` have been invoked on this
block (these calls are side effects in C++; counting them makes "disposed /
destroyed exactly once" a statement about the final state). -/
structure IControlBlock where
  strong_ref_counter : Nat
  weak_ref_counter : Nat
  disposeCount : Nat
  destroyCount : Nat
deriving DecidableEq

/-- `IControlBlock::AddStrongRef`: `++strong_ref_counter_`. -/
def IControlBlock.AddStrongRef (σ : IControlBlock) : IControlBlock :=
  { σ with strong_ref_counter := incSz σ.strong_ref_counter }

/-- `IControlBlock::RemoveStrongRef`: `--strong_ref_counter_`. -/
def IControlBlock.RemoveStrongRef (σ : IControlBlock) : IControlBlock :=
  { σ with strong_ref_counter := decSz σ.strong_ref_counter }

/-- `IControlBlock::AddWeakRef`: `++weak_ref_counter_`. -/
def IControlBlock.AddWeakRef (σ : IControlBlock) : IControlBlock :=
  { σ with weak_ref_counter := incSz σ.weak_ref_counter }

/-- `IControlBlock::RemoveWeakRef`: `--weak_ref_counter_`. -/
def IControlBlock.RemoveWeakRef (σ : IControlBlock) : IControlBlock :=
  { σ with weak_ref_counter := decSz σ.weak_ref_counter }

/-- `IControlBlock::GetStrongRefsCount`. -/
def IControlBlock.GetStrongRefsCount (σ : IControlBlock) : Nat :=
  σ.strong_ref_counter

/-- `IControlBlock::IsZeroStrongOwning`. -/
def IControlBlock.IsZeroStrongOwning (σ : IControlBlock) : Bool :=
  σ.strong_ref_counter == 0

/-- `IControlBlock::IsZeroWeakOwning`. -/
def IControlBlock.IsZeroWeakOwning (σ : IControlBlock) : Bool :=
  σ.weak_ref_counter == 0

/-- `Dispose()`: destroys the managed object (`delete ptr_` in
`ControlBlockPtr`, `destroy_at` in `ControlBlockHolder`); recorded as an
event on the block state. -/
def IControlBlock.Dispose (σ : IControlBlock) : IControlBlock :=
  { σ with disposeCount := σ.disposeCount + 1 }

/-- `Destroy()`: `delete this`, frees the control block's own storage;
recorded as an event on the block state. -/
def IControlBlock.Destroy (σ : IControlBlock) : IControlBlock :=
  { σ with destroyCount := σ.destroyCount + 1 }

/-- Effect of `SharedPtr<T>::Release` on the control block it references
(the `cblock_ != nullptr` branch, without the `EnableSharedFromThis`
pre-step which is modelled separately):
`RemoveStrongRef(); if (IsZeroStrongOwning()) Dispose();
 if (IsZeroStrongOwning() && IsZeroWeakOwning()) Destroy();`. -/
def sharedReleaseCB (σ : IControlBlock) : IControlBlock :=
  let σ1 := σ.RemoveStrongRef
  let σ2 := if σ1.IsZeroStrongOwning then σ1.Dispose else σ1
  if σ2.IsZeroStrongOwning && σ2.IsZeroWeakOwning then σ2.Destroy else σ2

/-- Effect of `WeakPtr<T>::Release` on the control block it references
(the `cblock_ != nullptr` branch):
`RemoveWeakRef(); if (IsZeroStrongOwning() && IsZeroWeakOwning()) Destroy();`. -/
def weakReleaseCB (σ : IControlBlock) : IControlBlock :=
  let σ1 := σ.RemoveWeakRef
  if σ1.IsZeroStrongOwning && σ1.IsZeroWeakOwning then σ1.Destroy else σ1

/-- A `SharedPtr<T>` handle: `{T* ptr_; IControlBlock* cblock_;}`.
`ptr = none` is a null `ptr_`; `cblock = none` is a null `cblock_`. -/
structure SharedPtr where
  ptr : Option Nat
  cblock : Option Nat
deriving DecidableEq

/-- A `WeakPtr<T>` handle: same shape as `SharedPtr`. -/
structure WeakPtr where
  ptr : Option Nat
  cblock : Option Nat
deriving DecidableEq

/-- `WeakPtr::UseCount` given the state `σ` of the block the handle
references when `cblock` is present:
`if (cblock_ != nullptr) return cblock_->GetStrongRefsCount(); return 0;`. -/
def WeakPtr.UseCount (w : WeakPtr) (σ : IControlBlock) : Nat :=
  match w.cblock with
  | some _ => σ.GetStrongRefsCount
  | none => 0

/-- `WeakPtr::Expired`: `UseCount() == 0`. -/
def WeakPtr.Expired (w : WeakPtr) (σ : IControlBlock) : Bool :=
  w.UseCount σ == 0

/-- Modelled from the spec: the dangling-reference error.  The exception type
`BadWeakPtr` is declared in `sw_fwd.h`, which is not among the source files;
the spec describes it as the error "raised when code demands a Shared Pointer
from an already-expired Weak Pointer via the throwing promotion path". -/
inductive BadWeakPtr
  | mk
deriving DecidableEq

/-- The throwing promotion constructor `SharedPtr(const WeakPtr<T>& other)`:
`if (other.Expired()) throw BadWeakPtr();
 cblock_ = other.cblock_; ptr_ = other.ptr_; cblock_->AddStrongRef();`.
`σ` is the state of the block `other` references (if any). -/
def sharedFromWeak (w : WeakPtr) (σ : IControlBlock) :
    Except BadWeakPtr (SharedPtr × IControlBlock) :=
  if w.Expired σ then Except.error BadWeakPtr.mk
  else Except.ok (⟨w.ptr, w.cblock⟩, σ.AddStrongRef)

/-- `WeakPtr::Lock`:
`return Expired() ? SharedPtr<T>() : SharedPtr<T>(*this);` — the second arm
goes through the throwing promotion constructor, so its possible exception
propagates through the `Except`. -/
def WeakPtr.Lock (w : WeakPtr) (σ : IControlBlock) :
    Except BadWeakPtr (SharedPtr × IControlBlock) :=
  if w.Expired σ then Except.ok (⟨none, none⟩, σ) else sharedFromWeak w σ

/-- The aliasing constructor `SharedPtr(const SharedPtr<Y>& other, T* ptr)`:
copies `other.cblock_`, observes the unrelated pointer `p`, and increments
the strong counter when the block is present. -/
def sharedAliasOf (other : SharedPtr) (p : Option Nat) (σ : IControlBlock) :
    SharedPtr × IControlBlock :=
  (⟨p, other.cblock⟩, if other.cblock.isSome then σ.AddStrongRef else σ)

/-- `SharedPtr::Release` for a handle of a type without the
`EnableSharedFromThis` base (the `if constexpr` branch is compiled out):
applies `sharedReleaseCB` when the block is present, then `Zeroing()`. -/
def SharedPtr.Release (sp : SharedPtr) (σ : IControlBlock) :
    SharedPtr × IControlBlock :=
  (⟨none, none⟩, if sp.cblock.isSome then sharedReleaseCB σ else σ)

/-- `SharedPtr::Reset()`: `this->Release();`. -/
def SharedPtr.Reset (sp : SharedPtr) (σ : IControlBlock) :
    SharedPtr × IControlBlock :=
  sp.Release σ

/-- The demotion constructor `WeakPtr(const SharedPtr<T>& other)`: copies
`ptr_` and `cblock_` and increments the weak counter when the block is
present.  The source handle is taken by const reference and is not written. -/
def weakFromShared (sp : SharedPtr) (σ : IControlBlock) :
    WeakPtr × IControlBlock :=
  (⟨sp.ptr, sp.cblock⟩, if sp.cblock.isSome then σ.AddWeakRef else σ)

/-- `WeakPtr::Release` for a handle: the block effect `weakReleaseCB` when
the block is present, then `Zeroing()`.  (`WeakPtr::Reset` is the same.) -/
def WeakPtr.Release (w : WeakPtr) (σ : IControlBlock) :
    WeakPtr × IControlBlock :=
  (⟨none, none⟩, if w.cblock.isSome then weakReleaseCB σ else σ)

/-- `WeakPtr::operator=(SharedPtr<Y>& other)`: `this->Release();` then copy
`ptr_`/`cblock_` and `AddWeakRef` when the block is present.  Single-block
model: when both `w.cblock` and `sp.cblock` are present they must denote the
block whose state `σ` is. -/
def weakAssignFromShared (w : WeakPtr) (sp : SharedPtr) (σ : IControlBlock) :
    WeakPtr × IControlBlock :=
  let r := w.Release σ
  (⟨sp.ptr, sp.cblock⟩, if sp.cblock.isSome then (r.2).AddWeakRef else r.2)

/-- The copy constructor `SharedPtr(const SharedPtr<T>& other)` with the
`EnableSharedFromThis` registration.  `esft` states whether `T` derives from
`ESFTBase` (so whether the `if constexpr` branch is compiled in); `weakThis`
is the `weak_this_` field of the object `other.ptr_` points to.  When `esft`
holds and `other.ptr_` is null, `other.ptr_->weak_this_ = *this` dereferences
a null pointer: the result is `none`. -/
def sharedCopyCtor (esft : Bool) (other : SharedPtr) (weakThis : WeakPtr)
    (σ : IControlBlock) : Option (SharedPtr × WeakPtr × IControlBlock) :=
  let σ1 := if other.cblock.isSome then σ.AddStrongRef else σ
  let res : SharedPtr := ⟨other.ptr, other.cblock⟩
  if esft then
    match other.ptr with
    | none => none
    | some _ =>
      let r := weakAssignFromShared weakThis res σ1
      some (res, r.1, r.2)
  else some (res, weakThis, σ1)

/-- `SharedPtr::Release` for a handle of an `EnableSharedFromThis`-derived
type: first `if (!ptr_->weak_this_.Expired()) ptr_->weak_this_.Reset();`,
then the counter steps of `sharedReleaseCB`.  Reading `ptr_->weak_this_`
dereferences `ptr_`, so a null `ptr_` with a present block yields `none`. -/
def sharedReleaseESFT (sp : SharedPtr) (weakThis : WeakPtr)
    (σ : IControlBlock) : Option (SharedPtr × WeakPtr × IControlBlock) :=
  if sp.cblock.isSome then
    match sp.ptr with
    | none => none
    | some _ =>
      let step :=
        if weakThis.Expired σ = false then weakThis.Release σ else (weakThis, σ)
      some (⟨none, none⟩, step.1, sharedReleaseCB step.2)
  else some (⟨none, none⟩, weakThis, σ)

/-- The raw-pointer-adopting constructor `SharedPtr(Y* ptr)` for an
`EnableSharedFromThis`-derived `Y` with `ptr != nullptr` at address `a`,
block at address `b`: `cblock_ = new ControlBlockPtr<Y>(ptr)` (which does
`AddStrongRef` since the pointer is non-null) and then
`ptr->weak_this_ = *this`.  Returns the handle, the object's new
`weak_this_` field and the block state. -/
def sharedCtorFromRawESFT (a b : Nat) : SharedPtr × WeakPtr × IControlBlock :=
  let sp : SharedPtr := ⟨some a, some b⟩
  let σ0 := IControlBlock.AddStrongRef ⟨0, 0, 0, 0⟩
  let r := weakAssignFromShared ⟨none, none⟩ sp σ0
  (sp, r.1, r.2)

/-- The scenario of one `EnableSharedFromThis` object (address `1`, block
`7`): `sp1` adopts it, `sp2` is a copy of `sp1`, then `sp2` is destroyed.
Returns the object's `weak_this_` field and the block state afterwards. -/
def esftTrace : Option (WeakPtr × IControlBlock) :=
  let c := sharedCtorFromRawESFT 1 7
  match sharedCopyCtor true c.1 c.2.1 c.2.2 with
  | none => none
  | some r2 =>
    match sharedReleaseESFT r2.1 r2.2.1 r2.2.2 with
    | none => none
    | some r3 => some (r3.2.1, r3.2.2)

/-- One heap allocation: bumps the allocation counter and returns the fresh
address. -/
def newAlloc (heap : Nat) : Nat × Nat := (heap + 1, heap)

/-- A `ControlBlockHolder<T>`: the `IControlBlock` base (counters) together
with `storage_`, the `aligned_storage_t` slot inside the very same
allocation in which the object is placement-constructed.  Its constructor
runs `new (&storage_) T(args...)` (no heap allocation) and `AddStrongRef()`. -/
structure ControlBlockHolder (α : Type) where
  counters : IControlBlock
  storage : α

/-- The `ControlBlockHolder` constructor: the object value `v` is the result
of forwarding the constructor arguments; counters start from zero and one
`AddStrongRef()` runs. -/
def mkControlBlockHolder {α : Type} (v : α) : ControlBlockHolder α :=
  { counters := IControlBlock.AddStrongRef ⟨0, 0, 0, 0⟩, storage := v }

/-- Result of the `MakeShared` model: the allocation counter after the call,
the holder block, and the returned handle. -/
structure MakeSharedOut (α : Type) where
  heapAfter : Nat
  block : ControlBlockHolder α
  sp : SharedPtr

/-- `MakeShared<T>(args...)`:
`return SharedPtr<T>(new ControlBlockHolder<T>(std::forward<Args>(args)...));`
— the single `new` is the only heap allocation (the object itself is
placement-constructed inside `storage_`), and the `SharedPtr` constructor
taking a `ControlBlockHolder*` sets `ptr_ = cblock_holder->GetPtr()` (a
pointer into that same allocation) and `cblock_ = cblock_holder` without
touching the counters.  `heap` is the allocation counter before the call. -/
def MakeShared {α : Type} (heap : Nat) (v : α) : MakeSharedOut α :=
  let a := newAlloc heap
  { heapAfter := a.1, block := mkControlBlockHolder v, sp := ⟨some a.2, some a.2⟩ }

/-!
Trace model of one ownership group.  A trace is the creation of the group's
control block followed by a sequence of the per-block effects of every
`SharedPtr`/`WeakPtr` method of the source (construction, copy, move,
assignment, `Reset`, destruction, demotion, promotion).  Assignments are the
composition `Release` then copy, so they are covered by the primitive steps
below; `Swap` and self-assignment change nothing.  Besides the block state
the model tracks, as specification-level ghost data, the number `s` of live
`SharedPtr` handles and the number `w` of live `WeakPtr` handles currently
referencing the block (a moved-from or reset handle no longer references
it).
-/

/-- Block state plus ghost handle counts for the trace model. -/
structure TState where
  cb : IControlBlock
  s : Nat
  w : Nat
deriving DecidableEq

/-- One per-block step of a trace. -/
inductive SPOp where
  /-- `SharedPtr` copy constructor / aliasing constructor / the copying half
  of a copy assignment: `AddStrongRef`, one more live strong handle. -/
  | sCopy
  /-- `SharedPtr` move constructor / aliasing move constructor: the handle is
  transferred and the source zeroed, no counter change. -/
  | sMove
  /-- `SharedPtr::Release` (destructor, `Reset`, the releasing half of an
  assignment): the steps of `sharedReleaseCB`, one live handle fewer. -/
  | sRelease
  /-- `WeakPtr(const SharedPtr&)` demotion or `weak_this_ = *this`
  registration: `AddWeakRef`, one more live weak handle. -/
  | sDemote
  /-- `WeakPtr` copy constructor / the copying half of a weak assignment:
  `AddWeakRef`, one more live weak handle. -/
  | wCopy
  /-- `WeakPtr` move constructor: no counter change. -/
  | wMove
  /-- `WeakPtr::Release` (destructor, `Reset`, the releasing half of an
  assignment): the steps of `weakReleaseCB`, one live handle fewer. -/
  | wRelease
  /-- The promotion `SharedPtr(const WeakPtr&)` (also via `Lock`) when the
  source is not expired: `AddStrongRef`, one more live strong handle. -/
  | promote
  /-- A promotion attempt on an expired source: `BadWeakPtr` is thrown (or
  `Lock` returns an empty handle); no state change. -/
  | promoteExpired
deriving DecidableEq, Fintype

/-- Apply one step to the tracked state. -/
def applyOp : TState → SPOp → TState
  | t, .sCopy => { t with cb := t.cb.AddStrongRef, s := t.s + 1 }
  | t, .sMove => t
  | t, .sRelease => { t with cb := sharedReleaseCB t.cb, s := t.s - 1 }
  | t, .sDemote => { t with cb := t.cb.AddWeakRef, w := t.w + 1 }
  | t, .wCopy => { t with cb := t.cb.AddWeakRef, w := t.w + 1 }
  | t, .wMove => t
  | t, .wRelease => { t with cb := weakReleaseCB t.cb, w := t.w - 1 }
  | t, .promote => { t with cb := t.cb.AddStrongRef, s := t.s + 1 }
  | t, .promoteExpired => t

/-- Guard of a step: it must act through an existing live handle, a promotion
sees the strong counter the source's `Expired()` check saw, and the handle
population stays below the `size_t` range (no 64-bit address space holds
`2 ^ 64` live handle objects). -/
def opGuard : TState → SPOp → Bool
  | t, .sCopy => decide (1 ≤ t.s ∧ t.s + t.w + 2 ≤ USIZE)
  | t, .sMove => decide (1 ≤ t.s)
  | t, .sRelease => decide (1 ≤ t.s)
  | t, .sDemote => decide (1 ≤ t.s ∧ t.s + t.w + 2 ≤ USIZE)
  | t, .wCopy => decide (1 ≤ t.w ∧ t.s + t.w + 2 ≤ USIZE)
  | t, .wMove => decide (1 ≤ t.w)
  | t, .wRelease => decide (1 ≤ t.w)
  | t, .promote =>
      decide (1 ≤ t.w ∧ t.cb.strong_ref_counter ≠ 0 ∧ t.s + t.w + 2 ≤ USIZE)
  | t, .promoteExpired => decide (1 ≤ t.w ∧ t.cb.strong_ref_counter = 0)

/-- A list of steps is well formed from `t` when every step's guard holds at
the state it is applied in. -/
def wfFrom : TState → List SPOp → Bool
  | _, [] => true
  | t, op :: rest => opGuard t op && wfFrom (applyOp t op) rest

/-- Run a list of steps. -/
def runOps : TState → List SPOp → TState
  | t, [] => t
  | t, op :: rest => runOps (applyOp t op) rest

/-- How the group's control block was created. -/
inductive Creation where
  /-- `SharedPtr(Y* ptr)` with `ptr != nullptr`: `new ControlBlockPtr<Y>(ptr)`
  runs `AddStrongRef`. -/
  | adoptNonNull
  /-- `SharedPtr(Y* ptr)` with `ptr == nullptr`: `ControlBlockPtr` skips the
  `AddStrongRef`, the strong counter stays `0`, yet the handle exists. -/
  | adoptNull
  /-- `MakeShared`: the `ControlBlockHolder` constructor runs `AddStrongRef`;
  the `SharedPtr(ControlBlockHolder*)` constructor adds nothing. -/
  | inPlace
deriving DecidableEq

/-- Initial tracked state of each creation mode: one live `SharedPtr`
handle, no weak handles, counters as the corresponding constructor leaves
them, no `Dispose`/`Destroy` event yet. -/
def initT : Creation → TState
  | .adoptNonNull => ⟨⟨1, 0, 0, 0⟩, 1, 0⟩
  | .adoptNull => ⟨⟨0, 0, 0, 0⟩, 1, 0⟩
  | .inPlace => ⟨⟨1, 0, 0, 0⟩, 1, 0⟩

/-- The dispose/destroy protocol at one state: the managed object has been
disposed exactly once precisely when the strong counter is zero, and the
block's storage has been destroyed exactly once precisely when both counters
are zero (inside `sharedReleaseCB` the `Dispose` step precedes the `Destroy`
step, so `Destroy` only ever happens after `Dispose`). -/
def reapOK (σ : IControlBlock) : Bool :=
  decide (σ.disposeCount = (if σ.strong_ref_counter = 0 then 1 else 0) ∧
    σ.destroyCount =
      (if σ.strong_ref_counter = 0 ∧ σ.weak_ref_counter = 0 then 1 else 0))

/-- `reapOK` holds at the starting state and after every step of the trace. -/
def protoFrom : TState → List SPOp → Bool
  | t, [] => reapOK t.cb
  | t, op :: rest => reapOK t.cb && protoFrom (applyOp t op) rest

/-- Claim C1 as stated, for one creation mode and one step list: at every
point of the trace the block has been disposed exactly once exactly when the
strong counter is zero and destroyed exactly once exactly when both counters
are zero. -/
def DisposeDestroyOnce (c : Creation) (ops : List SPOp) : Prop :=
  protoFrom (initT c) ops = true

/-- Claim C2's per-state condition: `UseCount()` of any live handle of the
group (`GetStrongRefsCount` of the shared block) equals the number of live
`SharedPtr` handles referencing the block. -/
def useCountOK (t : TState) : Bool :=
  decide (t.cb.GetStrongRefsCount = t.s)

/-- `useCountOK` holds at the starting state and after every step. -/
def useFrom : TState → List SPOp → Bool
  | t, [] => useCountOK t
  | t, op :: rest => useCountOK t && useFrom (applyOp t op) rest

/-- Claim C2 as stated, for one creation mode and one step list. -/
def UseCountMatches (c : Creation) (ops : List SPOp) : Prop :=
  useFrom (initT c) ops = true

/-- The inductive invariant of a well-formed trace from a good creation:
the strong counter equals the number of live strong handles, the weak
counter equals the number of live weak handles, and the dispose/destroy
event counts are determined by the counters. -/
def Inv (t : TState) : Prop :=
  t.cb.strong_ref_counter = t.s ∧
  t.cb.weak_ref_counter = t.w ∧
  t.cb.disposeCount = (if t.s = 0 then 1 else 0) ∧
  t.cb.destroyCount = (if t.s = 0 ∧ t.w = 0 then 1 else 0)

theorem incSz_eq (n : Nat) (h : n + 1 < USIZE) : incSz n = n + 1 :=
  Nat.mod_eq_of_lt h

theorem decSz_eq (n : Nat) (h : n ≠ 0) : decSz n = n - 1 := by
  simp [decSz, h]

theorem AddStrongRef_spec (σ : IControlBlock)
    (h : σ.strong_ref_counter + 1 < USIZE) :
    σ.AddStrongRef = ⟨σ.strong_ref_counter + 1, σ.weak_ref_counter,
      σ.disposeCount, σ.destroyCount⟩ := by
  simp [IControlBlock.AddStrongRef, incSz_eq _ h]

theorem AddWeakRef_spec (σ : IControlBlock)
    (h : σ.weak_ref_counter + 1 < USIZE) :
    σ.AddWeakRef = ⟨σ.strong_ref_counter, σ.weak_ref_counter + 1,
      σ.disposeCount, σ.destroyCount⟩ := by
  simp [IControlBlock.AddWeakRef, incSz_eq _ h]

theorem sharedReleaseCB_spec (σ : IControlBlock)
    (h : σ.strong_ref_counter ≠ 0) :
    sharedReleaseCB σ =
      ⟨σ.strong_ref_counter - 1, σ.weak_ref_counter,
        (if σ.strong_ref_counter - 1 = 0 then σ.disposeCount + 1
          else σ.disposeCount),
        (if σ.strong_ref_counter - 1 = 0 ∧ σ.weak_ref_counter = 0 then
          σ.destroyCount + 1 else σ.destroyCount)⟩ := by
  obtain ⟨a, b, d, e⟩ := σ
  simp only [IControlBlock.strong_ref_counter] at h
  by_cases ha : a - 1 = 0 <;> by_cases hb : b = 0 <;>
    simp [sharedReleaseCB, IControlBlock.RemoveStrongRef, IControlBlock.Dispose,
      IControlBlock.Destroy, IControlBlock.IsZeroStrongOwning,
      IControlBlock.IsZeroWeakOwning, decSz_eq a h, ha, hb]

theorem weakReleaseCB_spec (σ : IControlBlock)
    (h : σ.weak_ref_counter ≠ 0) :
    weakReleaseCB σ =
      ⟨σ.strong_ref_counter, σ.weak_ref_counter - 1, σ.disposeCount,
        (if σ.strong_ref_counter = 0 ∧ σ.weak_ref_counter - 1 = 0 then
          σ.destroyCount + 1 else σ.destroyCount)⟩ := by
  obtain ⟨a, b, d, e⟩ := σ
  simp only [IControlBlock.weak_ref_counter] at h
  by_cases ha : a = 0 <;> by_cases hb : b - 1 = 0 <;>
    simp [weakReleaseCB, IControlBlock.RemoveWeakRef, IControlBlock.Destroy,
      IControlBlock.IsZeroStrongOwning, IControlBlock.IsZeroWeakOwning,
      decSz_eq b h, ha, hb]

theorem inv_step (t : TState) (op : SPOp) (hg : opGuard t op = true)
    (h : Inv t) : Inv (applyOp t op) := by
  obtain ⟨⟨a, b, d, e⟩, s, w⟩ := t
  obtain ⟨h1, h2, h3, h4⟩ := h
  simp only [IControlBlock.strong_ref_counter, IControlBlock.weak_ref_counter,
    IControlBlock.disposeCount, IControlBlock.destroyCount] at h1 h2 h3 h4
  subst h1 h2
  cases op with
  | sCopy =>
    simp only [opGuard, decide_eq_true_eq] at hg
    obtain ⟨hs, hb⟩ := hg
    have hlt : a + 1 < USIZE := by omega
    refine ⟨incSz_eq a hlt, rfl, ?_, ?_⟩
    · show d = if a + 1 = 0 then 1 else 0
      rw [h3, if_neg (show ¬ a = 0 by omega), if_neg (show ¬ a + 1 = 0 by omega)]
    · show e = if a + 1 = 0 ∧ b = 0 then 1 else 0
      rw [h4, if_neg (show ¬ (a = 0 ∧ b = 0) by omega),
        if_neg (show ¬ (a + 1 = 0 ∧ b = 0) by omega)]
  | sMove => exact ⟨rfl, rfl, h3, h4⟩
  | sRelease =>
    simp only [opGuard, decide_eq_true_eq] at hg
    have ha : ¬ a = 0 := by omega
    have hspec := sharedReleaseCB_spec ⟨a, b, d, e⟩ ha
    refine ⟨?_, ?_, ?_, ?_⟩
    · show (sharedReleaseCB ⟨a, b, d, e⟩).strong_ref_counter = a - 1
      rw [hspec]
    · show (sharedReleaseCB ⟨a, b, d, e⟩).weak_ref_counter = b
      rw [hspec]
    · show (sharedReleaseCB ⟨a, b, d, e⟩).disposeCount = if a - 1 = 0 then 1 else 0
      rw [hspec]
      by_cases hz : a - 1 = 0 <;> simp [hz, h3, ha]
    · show (sharedReleaseCB ⟨a, b, d, e⟩).destroyCount =
        if a - 1 = 0 ∧ b = 0 then 1 else 0
      rw [hspec]
      by_cases hz : a - 1 = 0 ∧ b = 0 <;> simp [hz, h4, ha]
  | sDemote =>
    simp only [opGuard, decide_eq_true_eq] at hg
    obtain ⟨hs, hb⟩ := hg
    have hlt : b + 1 < USIZE := by omega
    refine ⟨rfl, incSz_eq b hlt, h3, ?_⟩
    show e = if a = 0 ∧ b + 1 = 0 then 1 else 0
    rw [h4, if_neg (show ¬ (a = 0 ∧ b = 0) by omega),
      if_neg (show ¬ (a = 0 ∧ b + 1 = 0) by omega)]
  | wCopy =>
    simp only [opGuard, decide_eq_true_eq] at hg
    obtain ⟨hw, hb⟩ := hg
    have hlt : b + 1 < USIZE := by omega
    refine ⟨rfl, incSz_eq b hlt, h3, ?_⟩
    show e = if a = 0 ∧ b + 1 = 0 then 1 else 0
    rw [h4, if_neg (show ¬ (a = 0 ∧ b = 0) by omega),
      if_neg (show ¬ (a = 0 ∧ b + 1 = 0) by omega)]
  | wMove => exact ⟨rfl, rfl, h3, h4⟩
  | wRelease =>
    simp only [opGuard, decide_eq_true_eq] at hg
    have hb : ¬ b = 0 := by omega
    have hspec := weakReleaseCB_spec ⟨a, b, d, e⟩ hb
    refine ⟨?_, ?_, ?_, ?_⟩
    · show (weakReleaseCB ⟨a, b, d, e⟩).strong_ref_counter = a
      rw [hspec]
    · show (weakReleaseCB ⟨a, b, d, e⟩).weak_ref_counter = b - 1
      rw [hspec]
    · show (weakReleaseCB ⟨a, b, d, e⟩).disposeCount = if a = 0 then 1 else 0
      rw [hspec]
      exact h3
    · show (weakReleaseCB ⟨a, b, d, e⟩).destroyCount =
        if a = 0 ∧ b - 1 = 0 then 1 else 0
      rw [hspec]
      by_cases hz : a = 0 ∧ b - 1 = 0 <;> simp [hz, h4, hb]
  | promote =>
    simp only [opGuard, decide_eq_true_eq] at hg
    obtain ⟨hw, ha, hb⟩ := hg
    have hlt : a + 1 < USIZE := by omega
    refine ⟨incSz_eq a hlt, rfl, ?_, ?_⟩
    · show d = if a + 1 = 0 then 1 else 0
      rw [h3, if_neg ha, if_neg (show ¬ a + 1 = 0 by omega)]
    · show e = if a + 1 = 0 ∧ b = 0 then 1 else 0
      rw [h4, if_neg (show ¬ (a = 0 ∧ b = 0) by omega),
        if_neg (show ¬ (a + 1 = 0 ∧ b = 0) by omega)]
  | promoteExpired => exact ⟨rfl, rfl, h3, h4⟩

theorem reapOK_of_inv (t : TState) (h : Inv t) : reapOK t.cb = true := by
  obtain ⟨h1, h2, h3, h4⟩ := h
  simp [reapOK, h1, h2, h3, h4]

theorem useCountOK_of_inv (t : TState) (h : Inv t) : useCountOK t = true := by
  simp [useCountOK, IControlBlock.GetStrongRefsCount, h.1]

theorem protoFrom_of_inv : ∀ (ops : List SPOp) (t : TState), Inv t →
    wfFrom t ops = true → protoFrom t ops = true
  | [], t, h, _ => by simpa [protoFrom] using reapOK_of_inv t h
  | op :: rest, t, h, hwf => by
    simp only [wfFrom, Bool.and_eq_true] at hwf
    simp only [protoFrom, Bool.and_eq_true]
    exact ⟨reapOK_of_inv t h,
      protoFrom_of_inv rest _ (inv_step t op hwf.1 h) hwf.2⟩

theorem useFrom_of_inv : ∀ (ops : List SPOp) (t : TState), Inv t →
    wfFrom t ops = true → useFrom t ops = true
  | [], t, h, _ => by simpa [useFrom] using useCountOK_of_inv t h
  | op :: rest, t, h, hwf => by
    simp only [wfFrom, Bool.and_eq_true] at hwf
    simp only [useFrom, Bool.and_eq_true]
    exact ⟨useCountOK_of_inv t h,
      useFrom_of_inv rest _ (inv_step t op hwf.1 h) hwf.2⟩

theorem initT_inv (c : Creation) (hc : c ≠ Creation.adoptNull) :
    Inv (initT c) := by
  cases c with
  | adoptNull => exact absurd rfl hc
  | adoptNonNull => exact ⟨rfl, rfl, rfl, rfl⟩
  | inPlace => exact ⟨rfl, rfl, rfl, rfl⟩

/-- C1 (amended): for every control block whose creation installs an initial
strong reference — adoption of a non-null raw pointer or in-place
construction via `MakeShared` — and every well-formed sequence of
`SharedPtr`/`WeakPtr` constructions, copies, moves, resets and destructions,
at every point of the trace the managed object has been disposed exactly
once precisely when the strong counter is zero (so at the moment it first
reached zero), and the block's storage has been destroyed exactly once
precisely when both counters are zero; inside a release, `Dispose()`
precedes `Destroy()`.  The unamended claim fails for blocks created by
adopting a null pointer (see the counterexample). -/
theorem c1_dispose_destroy (c : Creation) (ops : List SPOp)
    (hc : c ≠ Creation.adoptNull) (hwf : wfFrom (initT c) ops = true) :
    DisposeDestroyOnce c ops :=
  protoFrom_of_inv ops (initT c) (initT_inv c hc) hwf

/-- C1 witness: a concrete well-formed trace — copy, demote, release the
copy, release the original (this disposes the object), release the weak
handle (this destroys the block). -/
theorem c1_witness :
    (Creation.adoptNonNull ≠ Creation.adoptNull ∧
      wfFrom (initT Creation.adoptNonNull)
        [SPOp.sCopy, SPOp.sDemote, SPOp.sRelease, SPOp.sRelease, SPOp.wRelease] =
        true) ∧
    DisposeDestroyOnce Creation.adoptNonNull
      [SPOp.sCopy, SPOp.sDemote, SPOp.sRelease, SPOp.sRelease, SPOp.wRelease] :=
  ⟨⟨by decide, by decide⟩, c1_dispose_destroy _ _ (by decide) (by decide)⟩

/-- C1 counterexample: adopting a null raw pointer creates a control block
with both counters at zero whose storage is not released, violating the
protocol from the start; after the sole handle is destroyed (a well-formed
trace), no handle remains, yet the block was neither disposed nor destroyed
— its storage is never released rather than released exactly once. -/
theorem c1_counterexample :
    wfFrom (initT Creation.adoptNull) [SPOp.sRelease] = true ∧
    ¬ DisposeDestroyOnce Creation.adoptNull [SPOp.sRelease] ∧
    (runOps (initT Creation.adoptNull) [SPOp.sRelease]).s = 0 ∧
    (runOps (initT Creation.adoptNull) [SPOp.sRelease]).w = 0 ∧
    (runOps (initT Creation.adoptNull) [SPOp.sRelease]).cb.disposeCount = 0 ∧
    (runOps (initT Creation.adoptNull) [SPOp.sRelease]).cb.destroyCount = 0 := by
  simp only [DisposeDestroyOnce]
  decide

/-- C2 (amended): for every group created by non-null raw-pointer adoption
or `MakeShared`, and every well-formed sequence of copy, move and reset
operations (and any other handle operations), after each operation
`UseCount()` — the shared block's `GetStrongRefsCount` as any live handle
reports it — equals the number of live `SharedPtr` instances currently
referencing that control block.  The unamended claim fails for a group
created by adopting a null pointer (see the counterexample). -/
theorem c2_usecount (c : Creation) (ops : List SPOp)
    (hc : c ≠ Creation.adoptNull) (hwf : wfFrom (initT c) ops = true) :
    UseCountMatches c ops :=
  useFrom_of_inv ops (initT c) (initT_inv c hc) hwf

/-- C2 witness: a concrete well-formed sequence of copy, release, move,
release. -/
theorem c2_witness :
    (Creation.inPlace ≠ Creation.adoptNull ∧
      wfFrom (initT Creation.inPlace)
        [SPOp.sCopy, SPOp.sRelease, SPOp.sMove, SPOp.sRelease] = true) ∧
    UseCountMatches Creation.inPlace
      [SPOp.sCopy, SPOp.sRelease, SPOp.sMove, SPOp.sRelease] :=
  ⟨⟨by decide, by decide⟩, c2_usecount _ _ (by decide) (by decide)⟩

/-- C2 counterexample: a `SharedPtr` that adopts a null raw pointer is a
live instance referencing its freshly allocated control block, yet
`UseCount()` is `0` because `ControlBlockPtr` skipped the initial
`AddStrongRef`. -/
theorem c2_counterexample :
    ¬ UseCountMatches Creation.adoptNull [] ∧
    (initT Creation.adoptNull).cb.GetStrongRefsCount = 0 ∧
    (initT Creation.adoptNull).s = 1 := by
  simp only [UseCountMatches]
  decide

/-- C9: adopting a null pointer of object type allocates a `ControlBlockPtr`
whose strong counter stays `0`; destroying that `SharedPtr` decrements the
unsigned counter from `0`, wrapping modulo `2 ^ 64` to `2 ^ 64 - 1`, so
neither `Dispose` nor `Destroy` runs, and no further well-formed operation
can ever touch the block again — it is never freed. -/
theorem c9_null_adoption_underflow :
    (initT Creation.adoptNull).cb.strong_ref_counter = 0 ∧
    wfFrom (initT Creation.adoptNull) [SPOp.sRelease] = true ∧
    (runOps (initT Creation.adoptNull) [SPOp.sRelease]).cb.strong_ref_counter =
      2 ^ 64 - 1 ∧
    (runOps (initT Creation.adoptNull) [SPOp.sRelease]).cb.disposeCount = 0 ∧
    (runOps (initT Creation.adoptNull) [SPOp.sRelease]).cb.destroyCount = 0 ∧
    (∀ op : SPOp,
      opGuard (runOps (initT Creation.adoptNull) [SPOp.sRelease]) op = false) := by
  decide

theorem Expired_iff (w : WeakPtr) (σ : IControlBlock) :
    w.Expired σ = true ↔ (w.cblock = none ∨ σ.strong_ref_counter = 0) := by
  cases hw : w.cblock <;>
    simp [WeakPtr.Expired, WeakPtr.UseCount, IControlBlock.GetStrongRefsCount, hw]

/-- C3: the throwing promotion constructor `SharedPtr(const WeakPtr<T>&)`
raises `BadWeakPtr` if and only if the source is expired — its control-block
reference is absent or the strong counter is zero; on success it copies both
the raw pointer and the control-block reference from the source and
increments the strong counter by one. -/
theorem c3_promotion (w : WeakPtr) (σ : IControlBlock) :
    (sharedFromWeak w σ = Except.error BadWeakPtr.mk ↔
      (w.cblock = none ∨ σ.strong_ref_counter = 0)) ∧
    (∀ sp σ2, sharedFromWeak w σ = Except.ok (sp, σ2) →
      sp.ptr = w.ptr ∧ sp.cblock = w.cblock ∧
      σ2.strong_ref_counter = incSz σ.strong_ref_counter ∧
      σ2.weak_ref_counter = σ.weak_ref_counter ∧
      (σ.strong_ref_counter + 1 < USIZE →
        σ2.strong_ref_counter = σ.strong_ref_counter + 1)) := by
  by_cases hx : w.Expired σ = true
  · refine ⟨⟨fun _ => (Expired_iff w σ).mp hx, fun _ => by simp [sharedFromWeak, hx]⟩,
      fun sp σ2 h => ?_⟩
    simp [sharedFromWeak, hx] at h
  · have hx2 : w.Expired σ = false := by simpa using hx
    refine ⟨⟨fun h => ?_, fun h => absurd ((Expired_iff w σ).mpr h) hx⟩,
      fun sp σ2 h => ?_⟩
    · simp [sharedFromWeak, hx2] at h
    · simp only [sharedFromWeak, hx2, Bool.false_eq_true, if_false,
        Except.ok.injEq, Prod.mk.injEq] at h
      obtain ⟨hsp, hσ⟩ := h
      subst hsp hσ
      exact ⟨rfl, rfl, rfl, rfl, fun hlt => incSz_eq _ hlt⟩

/-- C3 witness: promoting an expired weak handle (no control block) raises
`BadWeakPtr`; promoting a live one copies the handle pair and takes the
strong counter from 2 to 3. -/
theorem c3_witness :
    sharedFromWeak ⟨some 5, none⟩ ⟨2, 1, 0, 0⟩ = Except.error BadWeakPtr.mk ∧
    ((⟨some 5, some 3⟩ : SharedPtr).ptr = (⟨some 5, some 3⟩ : WeakPtr).ptr ∧
      (⟨3, 1, 0, 0⟩ : IControlBlock).strong_ref_counter = 2 + 1) := by
  constructor
  · exact (c3_promotion ⟨some 5, none⟩ ⟨2, 1, 0, 0⟩).1.mpr (Or.inl rfl)
  · have h := (c3_promotion ⟨some 5, some 3⟩ ⟨2, 1, 0, 0⟩).2 ⟨some 5, some 3⟩
      ⟨3, 1, 0, 0⟩ (by rfl)
    exact ⟨h.1, h.2.2.2.2 (by decide)⟩

/-- C4: `WeakPtr::Lock` never throws — it always returns an `ok` result;
when the source is expired the result is an empty `SharedPtr` (null pointer,
no control block) and the block state is untouched, otherwise the result
shares the source's raw pointer and control block and the strong counter is
incremented by one. -/
theorem c4_lock (w : WeakPtr) (σ : IControlBlock) :
    (∃ r, w.Lock σ = Except.ok r) ∧
    (w.Expired σ = true → w.Lock σ = Except.ok (⟨none, none⟩, σ)) ∧
    (w.Expired σ = false →
      w.Lock σ = Except.ok (⟨w.ptr, w.cblock⟩, σ.AddStrongRef) ∧
      (σ.strong_ref_counter + 1 < USIZE →
        (σ.AddStrongRef).strong_ref_counter = σ.strong_ref_counter + 1)) := by
  by_cases hx : w.Expired σ = true
  · refine ⟨⟨(⟨none, none⟩, σ), ?_⟩, fun _ => ?_, fun h => absurd hx (by simp [h])⟩ <;>
      simp [WeakPtr.Lock, hx]
  · have hx2 : w.Expired σ = false := by simpa using hx
    have hok : w.Lock σ = Except.ok (⟨w.ptr, w.cblock⟩, σ.AddStrongRef) := by
      simp [WeakPtr.Lock, sharedFromWeak, hx2]
    exact ⟨⟨_, hok⟩, fun h => absurd h hx,
      fun _ => ⟨hok, fun hlt => incSz_eq _ hlt⟩⟩

/-- C4 witness: locking an expired (empty) weak handle yields an empty
`SharedPtr` with the state untouched; locking a live one yields a sharing
`SharedPtr` with the strong counter incremented. -/
theorem c4_witness :
    WeakPtr.Lock ⟨none, none⟩ ⟨0, 0, 0, 0⟩ =
      Except.ok (⟨none, none⟩, ⟨0, 0, 0, 0⟩) ∧
    WeakPtr.Lock ⟨some 4, some 2⟩ ⟨1, 1, 0, 0⟩ =
      Except.ok (⟨some 4, some 2⟩, IControlBlock.AddStrongRef ⟨1, 1, 0, 0⟩) := by
  constructor
  · exact (c4_lock ⟨none, none⟩ ⟨0, 0, 0, 0⟩).2.1 (by rfl)
  · exact ((c4_lock ⟨some 4, some 2⟩ ⟨1, 1, 0, 0⟩).2.2 (by rfl)).1

/-- C5 evaluation at the failing input: one `EnableSharedFromThis` object
(address 1, block 7) is adopted by `sp1` (which populates `weak_this_`),
`sp2` is a copy of `sp1`, and `sp2` is destroyed.  Contrary to the claim,
`weak_this_` is already cleared (`⟨none, none⟩`) although a strong owner
remains (`strong_ref_counter = 1`), because `SharedPtr::Release` resets it
under the guard `!weak_this_.Expired()`, which is true on every release
while strong owners remain — not only on the last one.  A subsequent
`SharedFromThis` (`weak_this_.Lock()`) therefore yields an empty pointer. -/
theorem c5_weak_this_cleared_early :
    esftTrace = some (⟨none, none⟩, ⟨1, 0, 0, 0⟩) ∧
    WeakPtr.Lock ⟨none, none⟩ ⟨1, 0, 0, 0⟩ =
      Except.ok (⟨none, none⟩, ⟨1, 0, 0, 0⟩) := by
  constructor <;> rfl

/-- C6: a `SharedPtr` built from a non-empty `sp` by the aliasing
constructor shares `sp`'s control block and holds a strong reference to it:
after `sp` is reset immediately afterwards, the strong counter is still
positive and the dispose/destroy event counts are unchanged — the
originally owned object has not been disposed. -/
theorem c6_alias_keeps_alive (sp : SharedPtr) (p : Option Nat)
    (σ : IControlBlock) (hptr : sp.ptr.isSome = true)
    (hcb : sp.cblock.isSome = true) (hs : 1 ≤ σ.strong_ref_counter)
    (hlt : σ.strong_ref_counter + 1 < USIZE) :
    (sharedAliasOf sp p σ).1.cblock = sp.cblock ∧
    (sharedAliasOf sp p σ).1.ptr = p ∧
    0 < ((sp.Reset (sharedAliasOf sp p σ).2).2).strong_ref_counter ∧
    ((sp.Reset (sharedAliasOf sp p σ).2).2).disposeCount = σ.disposeCount ∧
    ((sp.Reset (sharedAliasOf sp p σ).2).2).destroyCount = σ.destroyCount := by
  obtain ⟨a, b, d, e⟩ := σ
  simp only [IControlBlock.strong_ref_counter] at hs hlt
  have hA : IControlBlock.AddStrongRef ⟨a, b, d, e⟩ = ⟨a + 1, b, d, e⟩ :=
    AddStrongRef_spec ⟨a, b, d, e⟩ hlt
  have hspec : sharedReleaseCB ⟨a + 1, b, d, e⟩ = ⟨a, b, d, e⟩ := by
    rw [sharedReleaseCB_spec ⟨a + 1, b, d, e⟩ (Nat.succ_ne_zero a)]
    simp [show a + 1 - 1 = a by omega, show ¬ a = 0 by omega]
  have hfin : (sp.Reset (sharedAliasOf sp p ⟨a, b, d, e⟩).2).2 =
      (⟨a, b, d, e⟩ : IControlBlock) := by
    have h2 : (sharedAliasOf sp p ⟨a, b, d, e⟩).2 =
        IControlBlock.AddStrongRef ⟨a, b, d, e⟩ := by
      simp [sharedAliasOf, hcb]
    simp [SharedPtr.Reset, SharedPtr.Release, hcb, h2, hA, hspec]
  refine ⟨by simp [sharedAliasOf], by simp [sharedAliasOf], ?_, ?_, ?_⟩
  · rw [hfin]; exact hs
  · rw [hfin]
  · rw [hfin]

/-- C6 witness: a sole owner of block 0, aliased to observe address 9, then
reset: the strong counter stays positive. -/
theorem c6_witness :
    0 < ((SharedPtr.Reset ⟨some 1, some 0⟩
      (sharedAliasOf ⟨some 1, some 0⟩ (some 9) ⟨1, 0, 0, 0⟩).2).2).strong_ref_counter :=
  (c6_alias_keeps_alive ⟨some 1, some 0⟩ (some 9) ⟨1, 0, 0, 0⟩ rfl rfl
    (by decide) (by decide)).2.2.1

/-- C7: demotion `WeakPtr(const SharedPtr<T>&)` from a non-empty `sp`
copies `sp`'s raw pointer and control-block reference and increments the
weak counter by one, while the strong counter and the dispose/destroy
events are untouched; the source handle is taken by const reference and is
not modified. -/
theorem c7_demotion_frame (sp : SharedPtr) (σ : IControlBlock)
    (hcb : sp.cblock.isSome = true) (hlt : σ.weak_ref_counter + 1 < USIZE) :
    (weakFromShared sp σ).1.ptr = sp.ptr ∧
    (weakFromShared sp σ).1.cblock = sp.cblock ∧
    (weakFromShared sp σ).2.weak_ref_counter = σ.weak_ref_counter + 1 ∧
    (weakFromShared sp σ).2.strong_ref_counter = σ.strong_ref_counter ∧
    (weakFromShared sp σ).2.disposeCount = σ.disposeCount ∧
    (weakFromShared sp σ).2.destroyCount = σ.destroyCount := by
  simp [weakFromShared, hcb, AddWeakRef_spec σ hlt]

/-- C7 witness: demoting the sole owner of block 0 takes the weak counter
from 0 to 1 and leaves the strong counter at 1. -/
theorem c7_witness :
    (weakFromShared ⟨some 1, some 0⟩ ⟨1, 0, 0, 0⟩).2.weak_ref_counter = 0 + 1 ∧
    (weakFromShared ⟨some 1, some 0⟩ ⟨1, 0, 0, 0⟩).2.strong_ref_counter = 1 := by
  have h := c7_demotion_frame ⟨some 1, some 0⟩ ⟨1, 0, 0, 0⟩ rfl (by decide)
  exact ⟨h.2.2.1, h.2.2.2.1⟩

/-- C8: `MakeShared` performs exactly one heap allocation — the single
`new ControlBlockHolder<T>(...)`, whose allocation holds both the in-place
constructed object (`storage_`) and the strong/weak bookkeeping — and
returns a `SharedPtr` with strong count 1 whose raw pointer points into
that same allocation. -/
theorem c8_make_shared_single_alloc {α : Type} (heap : Nat) (v : α) :
    (MakeShared heap v).heapAfter = heap + 1 ∧
    (MakeShared heap v).block.counters.strong_ref_counter = 1 ∧
    (MakeShared heap v).block.counters.weak_ref_counter = 0 ∧
    (MakeShared heap v).block.counters.disposeCount = 0 ∧
    (MakeShared heap v).block.storage = v ∧
    (MakeShared heap v).sp.cblock = some heap ∧
    (MakeShared heap v).sp.ptr = some heap := by
  refine ⟨rfl, ?_, rfl, rfl, rfl, rfl, rfl⟩
  show incSz 0 = 1
  decide

/-- C10: for a type not deriving `EnableSharedFromThis`, copy-constructing
an empty `SharedPtr` yields an empty `SharedPtr` and changes no counter;
for a deriving type, the copy constructor writes through the source's raw
pointer unconditionally, so with an empty source the null-dereference
branch is reached. -/
theorem c10_copy_of_empty (w : WeakPtr) (σ : IControlBlock) :
    sharedCopyCtor false ⟨none, none⟩ w σ = some (⟨none, none⟩, w, σ) ∧
    sharedCopyCtor true ⟨none, none⟩ w σ = none :=
  ⟨rfl, rfl⟩

end SmartPtr
